import Mathlib

/-!
Verification of the swap-api service: a shallow embedding of the
trade-memory LRU cache (`TradeMemoryManager`), the `/api/swap/:mint`
request handler, the trade-extraction/validation pipeline
(`UnifiedTradeProcessor`) and the Jupiter price fallback, together with
theorems about the specified properties.

Numbers that are IEEE doubles in the source are modelled as exact
rationals (`ℚ`); raw lamport balances are modelled as `Int`.  Optional /
possibly-`undefined` fields are modelled as `Option`; JavaScript
truthiness of such fields is made explicit through the helpers below.
-/

set_option maxRecDepth 40000

unseal Rat.mul Rat.add Rat.sub Rat.inv

namespace SwapApi

/-- JS truthiness of a possibly-undefined string: `undefined`, `null` and
the empty string are falsy. -/
def strTruthy : Option String → Bool
  | none => false
  | some s => !(s == "")

/-- JS truthiness of a possibly-undefined number: `undefined`, `null` and
`0` are falsy. -/
def numTruthy : Option ℚ → Bool
  | none => false
  | some q => !(q == 0)

/-- JS truthiness of a possibly-undefined integer. -/
def intTruthy : Option Int → Bool
  | none => false
  | some i => !(i == 0)

/-- JS `a || b` on possibly-undefined strings. -/
def jsOr (a b : Option String) : Option String :=
  if strTruthy a then a else b

/-- The hard-coded WSOL mint (`SOL_MINT` in the source). -/
def SOL_MINT : String := "So11111111111111111111111111111111111111112"

/-! ## Trade and the trade-memory manager

From `src/builders/pumpfun/PumpFunTransactionBuilder.ts`
(class `TradeMemoryManager`) and `src/types.ts` (interface `Trade`). -/

/-- `Trade` of `src/types.ts`. -/
structure Trade where
  mint : String
  pool : String
  avgPrice : ℚ
  programId : String
  slot : String
deriving DecidableEq

/-- `TradeMemoryConfig`. -/
structure TradeMemoryConfig where
  maxMemoryMB : ℚ
  cleanupThreshold : ℚ
deriving DecidableEq

/-- `StoredTrade`: a trade plus the bookkeeping timestamps. -/
structure StoredTrade extends Trade where
  timestamp : Nat
  accessTime : Nat
deriving DecidableEq

/-- The `trades` field: a JS `Map` keyed by mint, modelled as an
insertion-ordered association list. -/
abbrev TradeMap := List (String × StoredTrade)

/-- `Map.has`. -/
def mapHas (m : TradeMap) (k : String) : Bool :=
  m.any (fun p => p.1 == k)

/-- `Map.set`: overwrite in place when the key exists, append otherwise. -/
def mapSet (m : TradeMap) (k : String) (v : StoredTrade) : TradeMap :=
  if mapHas m k then m.map (fun p => if p.1 == k then (k, v) else p)
  else m ++ [(k, v)]

/-- `Map.delete`. -/
def mapDelete (m : TradeMap) (k : String) : TradeMap :=
  m.filter (fun p => !(p.1 == k))

/-- `Map.get`. -/
def mapGet (m : TradeMap) (k : String) : Option StoredTrade :=
  (m.find? (fun p => p.1 == k)).map Prod.snd

/-- The mutable state of a `TradeMemoryManager`: the keyed map and the
LRU `accessOrder` list (least-recently-used first). -/
structure TradeMemoryManager where
  trades : TradeMap
  accessOrder : List String
deriving DecidableEq

def TradeMemoryManager.empty : TradeMemoryManager := ⟨[], []⟩

/-- `estimatedBytesPerTrade = 400`. -/
def estimatedBytesPerTrade : ℚ := 400

/-- `getCurrentMemoryUsage`, split on its two inputs so the cleanup loop
can be stated on them directly:
`trades.size * 400 + trades.size * 24 + accessOrder.length * 50`. -/
def usageParts (trades : TradeMap) (order : List String) : ℚ :=
  trades.length * estimatedBytesPerTrade + trades.length * 24 + order.length * 50

def getCurrentMemoryUsage (mm : TradeMemoryManager) : ℚ :=
  usageParts mm.trades mm.accessOrder

/-- `config.maxMemoryMB * 1024 * 1024`. -/
def maxBytes (cfg : TradeMemoryConfig) : ℚ :=
  cfg.maxMemoryMB * 1024 * 1024

/-- `shouldCleanup`: usage strictly above `maxBytes * cleanupThreshold`. -/
def shouldCleanup (cfg : TradeMemoryConfig) (mm : TradeMemoryManager) : Bool :=
  getCurrentMemoryUsage mm > maxBytes cfg * cfg.cleanupThreshold

/-- `removeFromAccessOrder`: `indexOf` + `splice(idx, 1)` removes the
first occurrence when present. -/
def removeFromAccessOrder (order : List String) (mint : String) : List String :=
  order.erase mint

/-- The `while` loop of `performCleanup` / `forceCleanup`: while usage
exceeds the target and the access order is non-empty, shift the
least-recently-used mint off the front and delete it from the map. -/
def cleanupLoop (target : ℚ) : List String → TradeMap → List String × TradeMap
  | [], trades => ([], trades)
  | mint :: rest, trades =>
    if usageParts trades (mint :: rest) > target then
      cleanupLoop target rest (if mapHas trades mint then mapDelete trades mint else trades)
    else (mint :: rest, trades)

/-- `performCleanup`: evict down to 70% of the ceiling. -/
def performCleanup (cfg : TradeMemoryConfig) (mm : TradeMemoryManager) : TradeMemoryManager :=
  let target := maxBytes cfg * (7 / 10)
  let r := cleanupLoop target mm.accessOrder mm.trades
  ⟨r.2, r.1⟩

/-- The insertion phase of `addTrade` (everything before the cleanup
check): drop an existing key from the access order, set the map entry,
push the mint to the most-recently-used end. -/
def addTradeInsert (now : Nat) (mm : TradeMemoryManager) (trade : Trade) : TradeMemoryManager :=
  let mint := trade.mint
  let storedTrade : StoredTrade := { toTrade := trade, timestamp := now, accessTime := now }
  let order1 := if mapHas mm.trades mint then removeFromAccessOrder mm.accessOrder mint
                else mm.accessOrder
  ⟨mapSet mm.trades mint storedTrade, order1 ++ [mint]⟩

/-- `addTrade`. -/
def addTrade (cfg : TradeMemoryConfig) (now : Nat) (mm : TradeMemoryManager)
    (trade : Trade) : TradeMemoryManager :=
  let mm1 := addTradeInsert now mm trade
  if shouldCleanup cfg mm1 then performCleanup cfg mm1 else mm1

/-- `getTrade`: returns the stored trade (with refreshed `accessTime`)
and promotes the mint to the most-recently-used end. -/
def getTrade (now : Nat) (mm : TradeMemoryManager) (mint : String) :
    Option StoredTrade × TradeMemoryManager :=
  match mapGet mm.trades mint with
  | none => (none, mm)
  | some t =>
    let t2 : StoredTrade := { t with accessTime := now }
    (some t2, ⟨mapSet mm.trades mint t2, removeFromAccessOrder mm.accessOrder mint ++ [mint]⟩)

/-- `removeTrade`. -/
def removeTrade (mm : TradeMemoryManager) (mint : String) : TradeMemoryManager :=
  if mapHas mm.trades mint then ⟨mapDelete mm.trades mint, removeFromAccessOrder mm.accessOrder mint⟩
  else mm

/-! ## The `POST /api/swap/:mint` handler

From `src/api.ts` (the `app.post` handler that accepts a `quote`
override).  The handler is modelled up to the builder dispatch: a
request either fails one of the validations (HTTP status + message) or
proceeds to the protocol builder with the computed swap parameters.
External effects (the price lookup `getTradeForMint`, the builder and
the block-hash fetch) are parameters of the model. -/

/-- A user-supplied `quote` object (or the trade loaded from the cache,
wrapped into the same shape); every field may be absent in a request
body. -/
structure Quote where
  mint : Option String
  pool : Option String
  avgPrice : Option ℚ
  programId : Option String
  slot : Option String
deriving DecidableEq

/-- The parsed JSON body of a swap request.  `slippage` is passed
through `parseInt`, so it is modelled by its integer value. -/
structure SwapBody where
  signer : Option String
  encoding : Option String
  type : Option String
  amountIn : Option ℚ
  amountOut : Option ℚ
  slippage : Option Int
  quote : Option Quote
deriving DecidableEq

/-- View a cached trade in the shape of a quote (`trade = quote` and the
legacy `trade = await getTradeForMint(mint)` meet at the same uses). -/
def tradeToQuote (t : Trade) : Quote :=
  ⟨some t.mint, some t.pool, some t.avgPrice, some t.programId, some t.slot⟩

/-- Result of the handler, cut at the builder call: either an error
response, or the swap parameters handed to the protocol builder. -/
inductive SwapOutcome where
  | validationError (status : Nat) (error : String)
  | proceed (slippageBps : Int) (amount : ℚ) (inputAmount outputAmount : Option ℚ) (trade : Quote)
deriving DecidableEq

def SwapOutcome.isError : SwapOutcome → Bool
  | .validationError _ _ => true
  | .proceed _ _ _ _ _ => false

/-- The slippage validation message of the source (`api.ts`). -/
def slippageErrorMsg : String :=
  "slippage must be a number between 0 and 10000 (basis points)"

/-- The `// Calculate amounts based on trade data` block of the handler
(lines 163-182 of `api.ts`): the projection of the missing side of the
swap from `trade.avgPrice`. -/
def calculateAmounts (type : Option String) (amountIn amountOut : Option ℚ)
    (amount avgPrice : ℚ) : Option ℚ × Option ℚ :=
  if type == some "buy" then
    (if numTruthy amountIn then (some amount, some (amount / avgPrice))
     else if numTruthy amountOut then (some (amount * avgPrice), some amount)
     else (none, none))
  else if type == some "sell" then
    (if numTruthy amountIn then (some amount, some (amount * avgPrice))
     else if numTruthy amountOut then (some (amount / avgPrice), some amount)
     else (none, none))
  else (none, none)

/-- The `POST /api/swap/:mint` handler of `src/api.ts`, following the
source's validation order exactly.  `lookup` is the result of the
`getTradeForMint(mint)` call on the no-quote path; `supported` is the
builder registry (`getBuilder` succeeds exactly on its members). -/
def postSwapMint (supported : List String) (mint : String) (body : SwapBody)
    (lookup : Option Trade) : SwapOutcome :=
  if !(strTruthy body.signer) then
    .validationError 400 "signer parameter is required"
  else if (body.signer.getD "").length < 32 then
    .validationError 400 "signer must be a valid public key string"
  else if strTruthy body.encoding && !(body.encoding == some "base64")
      && !(body.encoding == some "base58") then
    .validationError 400 "encoding parameter must be base64 or base58"
  else if !(strTruthy body.type)
      || (!(body.type == some "buy") && !(body.type == some "sell")) then
    .validationError 400 "type parameter is required and must be buy or sell"
  else if !(numTruthy body.amountIn) && !(numTruthy body.amountOut) then
    .validationError 400 "Either amountIn or amountOut parameter is required"
  else
    let tradeStep : Except SwapOutcome Quote :=
      match body.quote with
      | some q =>
        if !(strTruthy q.mint) || !(strTruthy q.pool) || !(numTruthy q.avgPrice)
            || !(strTruthy q.programId) || !(strTruthy q.slot) then
          .error (.validationError 400 "Invalid quote format")
        else if !(q.mint == some mint) then
          .error (.validationError 400 "Quote mint does not match request mint")
        else .ok q
      | none =>
        match lookup with
        | some t => .ok (tradeToQuote t)
        | none => .error (.validationError 404 "Trade not found")
    match tradeStep with
    | .error e => e
    | .ok trade =>
      let slippageStep : Except SwapOutcome Int :=
        if intTruthy body.slippage then
          let parsedSlippage := body.slippage.getD 0
          if parsedSlippage < 0 || parsedSlippage > 10000 then
            .error (.validationError 400 slippageErrorMsg)
          else .ok parsedSlippage
        else .ok 50
      match slippageStep with
      | .error e => e
      | .ok slippageBps =>
        let amount : ℚ := if numTruthy body.amountIn then body.amountIn.getD 0
                          else body.amountOut.getD 0
        if amount ≤ 0 then
          .validationError 400 "Amount must be a positive number"
        else
          let io := calculateAmounts body.type body.amountIn body.amountOut amount
            (trade.avgPrice.getD 0)
          if supported.contains (trade.programId.getD "") then
            .proceed slippageBps amount io.1 io.2 trade
          else
            .validationError 400 "Unsupported protocol"

/-! ## Transaction records

From `src/types.ts`: the record shape handed from the streamer to the
processor.  `handleGrpcMessage` builds it as
`{signature, slot, transaction: tx.transaction.transaction, meta: tx.transaction.meta, ...}`,
so `meta` is a sibling of `transaction` and `transaction` is the inner
`Transaction {signatures, message}`. -/

structure TransactionInstr where
  programIdIndex : Nat
  accounts : List Nat
  data : String
deriving DecidableEq

structure TransactionMessage where
  accountKeys : List String
  recentBlockhash : String
  instructions : List TransactionInstr
deriving DecidableEq

/-- `Transaction` of `src/types.ts`: only `signatures` and `message`. -/
structure Transaction where
  signatures : List String
  message : TransactionMessage
deriving DecidableEq

structure UiTokenAmount where
  amount : Option ℚ
  mint : Option String
deriving DecidableEq

/-- An entry of `preTokenBalances` / `postTokenBalances` (typed `any[]`
in the source; these are the fields the processor consults). -/
structure TokenBalance where
  mint : Option String
  uiTokenAmount : Option UiTokenAmount
deriving DecidableEq

/-- `TransactionMeta` of `src/types.ts` (fields the embedded code never
reads — `err`, `innerInstructions`, `rewards` — are not modelled). -/
structure TransactionMeta where
  fee : Int
  preBalances : List Int
  postBalances : List Int
  logMessages : List String
  preTokenBalances : List TokenBalance
  postTokenBalances : List TokenBalance
deriving DecidableEq

/-- `RawTransactionData` of `src/types.ts`. -/
structure RawTransactionData where
  signature : String
  slot : Nat
  transaction : Transaction
  meta : TransactionMeta
  blockTime : Nat
  timestamp : String
  connectionId : Option String
deriving DecidableEq

/-- The value of the dynamic access `(rawTransaction.transaction as any).meta`
in `calculateAvgPriceFromBalanceChanges`: `Transaction` (types.ts) has
only `signatures` and `message`, and the streamer sets `transaction` to
`tx.transaction.transaction` of exactly that shape, so the property read
yields `undefined`. -/
def Transaction.dynMeta (_t : Transaction) : Option TransactionMeta := none

/-! ## The trade-extraction pipeline

From `src/UnifiedTradeProcessor.ts`. -/

/-- The slice of a DexParser trade object that the processor reads. -/
structure TokenInfo where
  mint : Option String
  amountRaw : Option ℚ
deriving DecidableEq

structure ParsedTrade where
  type : Option String
  inputToken : Option TokenInfo
  outputToken : Option TokenInfo
  programId : Option String
  pool : Option (List String)
  Pool : Option (List String)
  poolId : Option String
  signature : Option String
  idx : Option Nat
  user : Option String
  slot : Option String
deriving DecidableEq

structure MemeEvent where
  signature : Option String
  idx : Option Nat
  user : Option String
  baseMint : Option String
  quoteMint : Option String
  bondingCurve : Option String
deriving DecidableEq

/-- `trade.inputToken?.mint` (and the output analogue). -/
def tokMint (tok : Option TokenInfo) : Option String :=
  tok.bind TokenInfo.mint

/-- `parseFloat(trade.inputToken?.amountRaw || '0')`. -/
def rawAmt (tok : Option TokenInfo) : ℚ :=
  (tok.bind TokenInfo.amountRaw).getD 0

/-- An element of `allTradeData`. -/
structure TradeData where
  trade : ParsedTrade
  inputAmountRaw : ℚ
  outputAmountRaw : ℚ
  inputMint : Option String
  outputMint : Option String
deriving DecidableEq

def mkTradeData (t : ParsedTrade) : TradeData :=
  ⟨t, rawAmt t.inputToken, rawAmt t.outputToken, tokMint t.inputToken, tokMint t.outputToken⟩

/-- The trade record built by `processIndividualTrade` before
validation (`mint` and `programId` may be `null`). -/
structure PTrade where
  mint : Option String
  pool : String
  avgPrice : ℚ
  programId : Option String
  slot : String
deriving DecidableEq

/-- `findTokenBalance` (inner helper of
`calculateAvgPriceFromBalanceChanges`). -/
def findTokenBalance (balances : List TokenBalance) (mint : String) : Option TokenBalance :=
  balances.find? (fun b =>
    b.mint == some mint
    || (b.uiTokenAmount.isSome && (b.uiTokenAmount.bind UiTokenAmount.mint) == some mint))

/-- The balance scan of `calculateAvgPriceFromBalanceChanges`, as a
function of the meta object the source reads (`txMeta`): first SOL
balance index whose absolute delta exceeds 10^6 lamports, the token
balance delta for the target mint, and their ratio when both are
positive. -/
def scanBalancesPrice (txMeta : Option TransactionMeta) (targetMint : String) : ℚ :=
  let preBalances := (txMeta.map TransactionMeta.preBalances).getD []
  let postBalances := (txMeta.map TransactionMeta.postBalances).getD []
  let preTokenBalances := (txMeta.map TransactionMeta.preTokenBalances).getD []
  let postTokenBalances := (txMeta.map TransactionMeta.postTokenBalances).getD []
  let bigDelta := (List.zip postBalances preBalances).find?
    (fun pr => (pr.1 - pr.2).natAbs > 1000000)
  let solChange : Int :=
    match bigDelta with
    | some pr => ((pr.1 - pr.2).natAbs : Int)
    | none => 0
  let preTokenBalance := findTokenBalance preTokenBalances targetMint
  let postTokenBalance := findTokenBalance postTokenBalances targetMint
  let tokenChange : ℚ :=
    match preTokenBalance, postTokenBalance with
    | some preB, some postB =>
      let preAmount : ℚ := ((preB.uiTokenAmount.bind UiTokenAmount.amount).getD 0)
      let postAmount : ℚ := ((postB.uiTokenAmount.bind UiTokenAmount.amount).getD 0)
      abs (postAmount - preAmount)
    | _, _ => 0
  if 0 < solChange then
    (if 0 < tokenChange then (Int.cast solChange : ℚ) / tokenChange else 0)
  else 0

/-- `calculateAvgPriceFromBalanceChanges` as the source has it: the meta
is taken from `(rawTransaction.transaction as any).meta`. -/
def calculateAvgPriceFromBalanceChanges (trade : ParsedTrade) (raw : RawTransactionData) : ℚ :=
  let targetMint := jsOr (tokMint trade.outputToken) (tokMint trade.inputToken)
  if !(strTruthy targetMint) || targetMint == some SOL_MINT then 0
  else scanBalancesPrice raw.transaction.dynMeta (targetMint.getD "")

/-- The balance-delta fallback as the specification describes it: the
same scan, applied to the record's `meta` field (where the streamer put
the balances). -/
def calculateAvgPriceFromBalanceChangesIntended (trade : ParsedTrade)
    (raw : RawTransactionData) : ℚ :=
  let targetMint := jsOr (tokMint trade.outputToken) (tokMint trade.inputToken)
  if !(strTruthy targetMint) || targetMint == some SOL_MINT then 0
  else scanBalancesPrice (some raw.meta) (targetMint.getD "")

/-- `extractPoolId`. -/
def extractPoolId (trade : ParsedTrade) (memeEvents : List MemeEvent) : Option String :=
  match trade.pool with
  | some (p :: _) => some p
  | _ =>
    match trade.Pool with
    | some (p :: _) => some p
    | _ =>
      if strTruthy trade.poolId then trade.poolId
      else if memeEvents.length > 0 then
        let m1 := memeEvents.find? (fun e =>
          e.signature == trade.signature && e.idx == trade.idx && strTruthy e.bondingCurve)
        let m2 := match m1 with
          | some e => some e
          | none => memeEvents.find? (fun e =>
              e.user == trade.user
              && ((e.baseMint == tokMint trade.outputToken && e.quoteMint == tokMint trade.inputToken)
                  || (e.baseMint == tokMint trade.inputToken && e.quoteMint == tokMint trade.outputToken))
              && strTruthy e.bondingCurve)
        let m3 := match m2 with
          | some e => some e
          | none => memeEvents.find? (fun e => e.user == trade.user && strTruthy e.bondingCurve)
        match m3 with
        | some e => e.bondingCurve
        | none => none
      else none

/-- The mint-resolution step of `processIndividualTrade`
(lines 264-271): `trade.outputToken?.mint || trade.inputToken?.mint`,
borrowing from the first sibling with any mint when that is falsy. -/
def extractMint (trade : ParsedTrade) (allTradeData : List TradeData) : Option String :=
  let mint := jsOr (tokMint trade.outputToken) (tokMint trade.inputToken)
  if !(strTruthy mint) && allTradeData.length > 0 then
    match allTradeData.find? (fun d => strTruthy d.inputMint || strTruthy d.outputMint) with
    | some tradeWithMint => jsOr tradeWithMint.outputMint tradeWithMint.inputMint
    | none => mint
  else mint

/-- The mint-resolution rule as the specification states it: the
observation mint is `outputMint` if it is non-WSOL, else `inputMint`;
when neither is present, borrow from a sibling. -/
def extractMintSpec (trade : ParsedTrade) (allTradeData : List TradeData) : Option String :=
  let out := tokMint trade.outputToken
  let inm := tokMint trade.inputToken
  let mint := if strTruthy out && !(out == some SOL_MINT) then out else inm
  if !(strTruthy mint) && allTradeData.length > 0 then
    match allTradeData.find? (fun d => strTruthy d.inputMint || strTruthy d.outputMint) with
    | some tradeWithMint => jsOr tradeWithMint.outputMint tradeWithMint.inputMint
    | none => mint
  else mint

/-- `validateTrade`: `isValid` flag plus the rejection reason. -/
def validateTrade (allowedProgramIds : List String) (t : PTrade) : Bool × Option String :=
  if !(strTruthy t.mint) then (false, some "Missing mint")
  else if t.pool == "" then (false, some "Missing pool")
  else if t.avgPrice ≤ 0 then (false, some "Invalid avgPrice")
  else if !(strTruthy t.programId) then (false, some "Missing programId")
  else if t.slot == "" then (false, some "Missing slot")
  else if t.mint == some "unknown" then (false, some "Mint is unknown")
  else if t.pool == "unknown" then (false, some "Pool is unknown")
  else if t.programId == some "unknown" then (false, some "ProgramId is unknown")
  else if !(allowedProgramIds.contains (t.programId.getD "")) then
    (false, some "ProgramId not whitelisted")
  else (true, none)

/-- Result triple of `processIndividualTrade`. -/
structure IndividualResult where
  isValid : Bool
  trade : Option PTrade
  reason : Option String
deriving DecidableEq

/-- `processIndividualTrade`. -/
def processIndividualTrade (allowedProgramIds : List String) (trade : ParsedTrade)
    (allTradeData tradesWithAmounts : List TradeData) (memeEvents : List MemeEvent)
    (raw : RawTransactionData) : IndividualResult :=
  let inputAmountRaw0 := rawAmt trade.inputToken
  let outputAmountRaw0 := rawAmt trade.outputToken
  let amounts : ℚ × ℚ :=
    if (inputAmountRaw0 == 0 || outputAmountRaw0 == 0) && tradesWithAmounts.length > 0 then
      let fallbackTrade :=
        match tradesWithAmounts.find? (fun d =>
          d.inputMint == tokMint trade.inputToken
          || d.outputMint == tokMint trade.outputToken
          || d.inputMint == tokMint trade.outputToken
          || d.outputMint == tokMint trade.inputToken) with
        | some d => some d
        | none => tradesWithAmounts.head?
      match fallbackTrade with
      | some fb =>
        (if inputAmountRaw0 == 0 then fb.inputAmountRaw else inputAmountRaw0,
         if outputAmountRaw0 == 0 then fb.outputAmountRaw else outputAmountRaw0)
      | none => (inputAmountRaw0, outputAmountRaw0)
    else (inputAmountRaw0, outputAmountRaw0)
  let inputAmountRaw := amounts.1
  let outputAmountRaw := amounts.2
  let avgPrice0 : ℚ :=
    if trade.type == some "BUY" then
      (if inputAmountRaw > 0 && outputAmountRaw > 0 then inputAmountRaw / outputAmountRaw else 0)
    else if trade.type == some "SELL" then
      (if inputAmountRaw > 0 && outputAmountRaw > 0 then outputAmountRaw / inputAmountRaw else 0)
    else 0
  -- `rawTransaction.transaction` is always an object, hence truthy
  let avgPrice := if avgPrice0 == 0 then calculateAvgPriceFromBalanceChanges trade raw
                  else avgPrice0
  let poolId := extractPoolId trade memeEvents
  let mint := extractMint trade allTradeData
  if !(strTruthy poolId) || poolId == some "unknown" then
    ⟨false, none, some "Pool ID is null or unknown"⟩
  else
    let processedTrade : PTrade :=
      ⟨mint, poolId.getD "", avgPrice,
       if strTruthy trade.programId then trade.programId else none,
       if strTruthy trade.slot then trade.slot.getD "" else toString raw.slot⟩
    let validation := validateTrade allowedProgramIds processedTrade
    ⟨validation.1, if validation.1 then some processedTrade else none, validation.2⟩

/-- What `DexParser.parseAll` yields (the fields the processor reads). -/
structure ParseResult where
  trades : List ParsedTrade
  memeEvents : List MemeEvent
deriving DecidableEq

structure ProcessingStats where
  totalTrades : Nat
  validTrades : Nat
  invalidTrades : Nat
  memeEventsFound : Nat
deriving DecidableEq

structure ProcessedTradeResult where
  validTrades : List PTrade
  invalidTrades : List (ParsedTrade × Option String)
  processingStats : ProcessingStats
deriving DecidableEq

/-- The empty result returned by the fault barriers. -/
def emptyProcessedResult : ProcessedTradeResult := ⟨[], [], ⟨0, 0, 0, 0⟩⟩

/-- `processTransaction`.  The `DexParser.parseAll` call is a parameter:
`Except.error` is a thrown parser exception, caught by the inner fault
barrier. -/
def processTransaction (allowedProgramIds : List String)
    (parseOutcome : Except String ParseResult) (raw : RawTransactionData) :
    ProcessedTradeResult :=
  match parseOutcome with
  | .error _ => emptyProcessedResult
  | .ok parseResult =>
    let trades := parseResult.trades
    let memeEvents := parseResult.memeEvents
    let filteredTrades := trades.filter (fun t =>
      !(tokMint t.inputToken == some SOL_MINT && tokMint t.outputToken == some SOL_MINT))
    let allTradeData := filteredTrades.map mkTradeData
    let tradesWithAmounts := allTradeData.filter (fun d =>
      d.inputAmountRaw > 0 && d.outputAmountRaw > 0)
    let results := filteredTrades.map (fun t =>
      (t, processIndividualTrade allowedProgramIds t allTradeData tradesWithAmounts memeEvents raw))
    let validTrades := results.filterMap (fun r =>
      if r.2.isValid && r.2.trade.isSome then r.2.trade else none)
    let invalidTrades := (results.filter (fun r => !(r.2.isValid && r.2.trade.isSome))).map
      (fun r => (r.1, r.2.reason))
    ⟨validTrades, invalidTrades,
     ⟨trades.length, validTrades.length, invalidTrades.length, memeEvents.length⟩⟩

/-! ## The Jupiter price fallback

From the unnamed source file holding the service entry point
(`getTradeForMint`, `fetchTradeFromJupiter`). -/

/-- The fixed Jupiter label table of `fetchTradeFromJupiter`. -/
def labelToProgramIdTable : List (String × String) :=
  [("GoonFi", "goonERTdGsjnkZqWuVjs73BZ3Pb9qoCUdBUL17BnS5j"),
   ("Bonkswap", "BSwp6bEBihVLdqJRKGgzjcGLHkcTuzmSo1TQkHepzH8p"),
   ("StepN", "Dooar9JkhdZ7J3LHN3A7YCuoGRUggXhQaG4kijfLGU2j"),
   ("Stabble Stable Swap", "swapNyd8XiQwJ6ianp9snpu4brUqFxadzvHebnAXjJZ"),
   ("Sanctum", "stkitrT1Uoy18Dk1fTrgPw8W6MVzoCfYoAFT4MLsmhq"),
   ("Whirlpool", "whirLbMiicVdio4qvUfM5KAg6Ct8VwpYzGff3uctyCc"),
   ("Meteora DAMM v2", "cpamdpZCGKUy5JxQXB4dcpGPiikHawvSWAd6mEn1sGG"),
   ("Solayer", "endoLNCKTqDn8gSVnN2hDdpgACUPWHZTwoYnnMybpAT"),
   ("OpenBook V2", "opnb2LAfJYbRMAHHvqjCwQxanZn7ReEHp1k81EohpZb"),
   ("Cropper", "H8W3ctz92svYg6mkn1UtGfu2aQr2fnUFHM1RhScEtQDt"),
   ("Phoenix", "PhoeNiXZ8ByJGLkxNfZRnkUfjvmuYqLR89jjFHGqdXY"),
   ("SolFi", "SoLFiHG9TfgtdUXUjWAxi3LtvYuFyDLVhBWxdMZxyCe"),
   ("Pump.fun Amm", "pAMMBay6oceH9fJKBRHGP5D4bD4sWpmSwMn52FMfXEA"),
   ("Helium Network", "treaf4wWBBty3fHdyBpo35Mz84M8k3heKXmjmi9vFt5"),
   ("Raydium CP", "CPMMoo8L3F4NbTegBCKVNunggL7H1ZpdTHKxQB5qKP1C"),
   ("Perps", "PERPHjGBqRHArX4DySjwM6UJHiR3sWAatqfdBS2qQJu"),
   ("Raydium", "675kPX9MHTjS2zt1qfr1NYHuzeLXfQM9H24wFSUt1Mp8"),
   ("Byreal", "REALQqNEomY6cQGZJUGwywTBD2UmDT32rZcNnfxQ5N2"),
   ("Invariant", "HyaB3W9q6XdA5xwpU4XnSZV94htfmbmqJXZcEbRaJutt"),
   ("DexLab", "DSwpgjMvXhtGn6BsbqmacdBZyfLj6jSWf3HJpdJtmg6N"),
   ("Perena", "NUMERUNsFCP3kuNmWZuXtm1AaQCPj9uw6Guv2Ekoi5P"),
   ("Crema", "CLMM9tUoggJu2wagPkkqs9eFG4BWhVBZWkP1qv3Sp7tR"),
   ("Penguin", "PSwapMdSai8tjrEXcxFeQth87xC4rRsa4VA5mhGhXkP"),
   ("Token Swap", "SwaPpA9LAaLfeLi3a68M4DjnLqgtticKg6CnyNwgAC8"),
   ("Saber", "SSwpkEEcbUqx4vtoEByFjSkhKdCT862DNVb52nZg1UZ"),
   ("Woofi", "WooFif76YGRNjk1pA8wCsN67aQsD9f9iLsz4NcJ1AVb"),
   ("Meteora DLMM", "LBUZKhRxPF3XUpBCjp4YzTKgLccjZhTSDM9YuVaPwxo"),
   ("SolFi V2", "SV2EYYJyRz2YhfXwXnhNAevDEui5Q6yrfyo13WtupPF"),
   ("Mercurial", "MERLuDFBMmsHnsBPZw2sDQZHvXFMwp8EdjudcU2HKky"),
   ("Gavel", "srAMMzfVHVAtgSJc8iH6CfKzuWuUTzLHVCE81QU1rgi"),
   ("Obric V2", "obriQD1zbpyLz95G5n7nJe6a4DPjpFwa5XYPoNm113y"),
   ("Pump.fun", "6EF8rrecthR5Dkzon8Nwu78hRvfCKubJ14M5uBEwF6P"),
   ("ZeroFi", "ZERor4xhbUycZ6gb9ntrhqscUcZmAbQDjEAtCf4hbZY"),
   ("FluxBeam", "FLUXubRmkEi2q6K3Y9kBPg9248ggaZVsoSFhtJHSrm1X"),
   ("Raydium CLMM", "CAMMCzo5YL8w4VFF8KVHrK22GGUsp5VTaW7grrKgrWqK"),
   ("Boop.fun", "boop8hVGQGqehUK2iVEMEnMrL5RbjywRzHKBmBE7ry4"),
   ("Orca V2", "9W959DqEETiGZocYWCQPaJ6sBmUzgfxXfqGeTEdp3aQP"),
   ("Orca V1", "DjVE6JNiYqPL2QXyCUUh8rNjHrbz9hXHNYt99MQ59qw1"),
   ("Meteora", "Eo7WjKq67rjJQSZxS6z3YkapzY3eMj6Xy8X5EQVn5UaB"),
   ("Aquifer", "AQU1FRd7papthgdrwPTTq5JacJh8YtwEXaBfKU3bTz45"),
   ("1DEX", "DEXYosS6oEGvk8uCDayvwEZz4qEyDJRf9nFgYCaqPMTm"),
   ("Saber (Decimals)", "DecZY86MU5Gj7kppfUCEmd4LbXXuyZH1yHaP2NTqdiZB"),
   ("Moonit", "MoonCVVNZFSYkqNXP6bxHLPL6QQJiMagDL3qcqUQTrG"),
   ("Saros", "SSwapUtytfBdBn1b9NUGG6foMVPtcWgpRU32HToDUZr"),
   ("Raydium Launchlab", "LanMV9sAd7wArD4vJFi2qDdfnVhFxYSUg6eADduJ3uj"),
   ("Dynamic Bonding Curve", "dbcij3LWUppWqq96dh6gJWwBifmcGfLSB5D4DuSMaqN"),
   ("Sanctum Infinity", "5ocnV1qiCgaQR8Jb8xWnVbApfaygJ8tNoZfgPwsgx9kx"),
   ("TesseraV", "TessVdML9pBGgG9yGks7o4HewRaXVAMuoVj4x83GLQH"),
   ("HumidiFi", "9H6tua7jkLhdm3w8BvgpTn5LZNU7g4ZynDmCiNN3q6Rp"),
   ("Stabble Weighted Swap", "swapFpHZwjELNnjvThjajtiVmkz3yPQEHjLtka2fwHW"),
   ("Aldrin", "AMM55ShdkoGRB5jVYPjWziwk8m5MpwyDgsMWHaMSQWH6"),
   ("PancakeSwap", "HpNfyc2Saw7RKkQd8nEL4khUcuPhQ7WwY1B2qjx8jxFq"),
   ("Guacswap", "Gswppe6ERWKpUTXvRPfXdzHhiCyJvLadVvXGfdpBqcE1"),
   ("Lifinity V2", "2wT8Yq49kHgDzXuPxZSaeLaH1qbmGXtEyPy64bL7aD3c"),
   ("Virtuals", "5U3EU2ubXtK84QcRjWVmYt9RaDyA8gKxdUrPFXmZyaki"),
   ("GooseFX GAMMA", "GAMMA7meSFWaBXF25oSUgmGRwaW6sCMFLmBNiMSdbHVT"),
   ("Heaven", "HEAVENoP2qxoeuF8Dj2oT1GHEnu49U5mJYkdeC8BAX2o"),
   ("Aldrin V2", "CURVGoZn8zycx6FXwwevgBTB2gVvdbGTEpvMJDbgs2t4")]

/-- `labelToProgramId[swapInfo.label]`. -/
def labelToProgramId (label : String) : Option String :=
  (labelToProgramIdTable.find? (fun p => p.1 == label)).map Prod.snd

/-- `route.swapInfo` of a Jupiter quote (the fields the source reads). -/
structure SwapInfo where
  ammKey : String
  label : Option String
deriving DecidableEq

structure RoutePlanItem where
  swapInfo : SwapInfo
deriving DecidableEq

/-- The Jupiter quote JSON (the fields the source reads).  `inAmount`
and `outAmount` are JSON strings holding decimal integers, modelled by
their numeric values; a present numeric string is truthy. -/
structure JupiterQuoteResponse where
  inAmount : Option ℚ
  outAmount : Option ℚ
  routePlan : List RoutePlanItem
  contextSlot : Option Nat
deriving DecidableEq

/-- `fetchTradeFromJupiter`.  `resp = none` covers a network failure or
a non-OK HTTP response; `now` is `Date.now()`.  `supported` is the
builder registry whitelist (`builderRegistry.hasBuilder`). -/
def fetchTradeFromJupiter (supported : List String) (mint : String) (now : Nat)
    (resp : Option JupiterQuoteResponse) : Option Trade :=
  match resp with
  | none => none
  | some data =>
    if data.inAmount.isNone || data.outAmount.isNone || data.routePlan.length == 0 then none
    else if data.routePlan.length > 1 then none
    else
      match data.routePlan with
      | [] => none
      | route :: _ =>
        let swapInfo := route.swapInfo
        let solAmount := (data.inAmount.getD 0) / 1000000000
        let tokenAmount := data.outAmount.getD 0
        let avgPrice := solAmount / tokenAmount
        let programId : String :=
          if strTruthy swapInfo.label then
            match labelToProgramId (swapInfo.label.getD "") with
            | some mappedProgramId =>
              if supported.contains mappedProgramId then mappedProgramId else "unknown"
            | none => "unknown"
          else "unknown"
        let slot : String :=
          match data.contextSlot with
          | some s => toString s
          | none => toString now
        some ⟨mint, swapInfo.ammKey, avgPrice, programId, slot⟩

/-- `getTradeForMint`.  External calls are parameters: `marketOf` is
`builderRegistry.getMarketForProgramId`, `priceResult` the
`solanaTrade.price` call (`Except.error` = thrown), `jupResp` the
Jupiter HTTP response.  Returns the trade served to the caller and the
updated memory-manager state. -/
def getTradeForMint (cfg : TradeMemoryConfig) (supported : List String)
    (marketOf : String → Option String) (priceResult : Except Unit ℚ)
    (jupResp : Option JupiterQuoteResponse) (now : Nat)
    (mm : TradeMemoryManager) (mint : String) : Option Trade × TradeMemoryManager :=
  let r0 := getTrade now mm mint
  let storedTrade := r0.1
  let mm1 := r0.2
  let realtime : Option Trade :=
    match storedTrade with
    | some st =>
      match marketOf st.programId with
      | some _ =>
        match priceResult with
        | .ok p =>
          if p > 0 then some ⟨st.mint, st.pool, p, st.programId, st.slot⟩ else none
        | .error _ => none
      | none => none
    | none => none
  match realtime with
  | some t => (some t, mm1)
  | none =>
    match fetchTradeFromJupiter supported mint now jupResp with
    | some jupiterTrade => (some jupiterTrade, addTrade cfg now mm1 jupiterTrade)
    | none =>
      match storedTrade with
      | some st => (some ⟨st.mint, st.pool, st.avgPrice, st.programId, st.slot⟩, mm1)
      | none => (none, mm1)

/-! ## Concrete instances used by the boundary theorems -/

/-- The Pump.fun program id (a registered builder). -/
def progA : String := "6EF8rrecthR5Dkzon8Nwu78hRvfCKubJ14M5uBEwF6P"

/-- A concrete builder-registry whitelist. -/
def supportedFixture : List String :=
  [progA, "pAMMBay6oceH9fJKBRHGP5D4bD4sWpmSwMn52FMfXEA"]

/-- A well-formed quote override with `avgPrice = 2`. -/
def quoteFixture : Quote := ⟨some "MintM", some "PoolP", some 2, some progA, some "42"⟩

/-- A request body passing every validation: 34-character signer, type
`buy`, `amountIn = 1`, quote override, no slippage. -/
def swapBodyFixture : SwapBody :=
  ⟨some "Signer1111111111111111111111111111", none, some "buy", some 1, none, none,
   some quoteFixture⟩

def bodyWithSlippage (s : Option Int) : SwapBody :=
  ⟨swapBodyFixture.signer, swapBodyFixture.encoding, swapBodyFixture.type,
   swapBodyFixture.amountIn, swapBodyFixture.amountOut, s, swapBodyFixture.quote⟩

def bodyWithAmounts (amountIn amountOut : Option ℚ) : SwapBody :=
  ⟨swapBodyFixture.signer, swapBodyFixture.encoding, swapBodyFixture.type,
   amountIn, amountOut, swapBodyFixture.slippage, swapBodyFixture.quote⟩

/-- The memory configuration of `index.ts`:
`maxMemoryMB = 1000`, `cleanupThreshold = 0.85`. -/
def cfgFixture : TradeMemoryConfig := ⟨1000, 17 / 20⟩

/-- A single-hop Jupiter quote whose label `GoonFi` maps to a program
that is not a registered builder. -/
def jupRespGoonFi : JupiterQuoteResponse :=
  ⟨some 1000000, some 500, [⟨⟨"AmmPoolG1", some "GoonFi"⟩⟩], some 123⟩

/-- A parsed SELL candidate whose `outputToken.mint` is WSOL and whose
`inputToken.mint` is the traded token. -/
def tradeSellToWsol : ParsedTrade :=
  ⟨some "SELL", some ⟨some "MintM", some 7⟩, some ⟨some SOL_MINT, some 5⟩,
   some "P", none, none, some "pool5", some "sig5", some 0, some "user5", some "9"⟩

/-- A streamer-shaped transaction record with a 2-SOL balance delta and
a 500-unit token delta for mint `MintC6` in its `meta`. -/
def c6meta : TransactionMeta :=
  ⟨5000, [5000000000, 7], [3000000000, 7], [],
   [⟨some "MintC6", some ⟨some 1000, some "MintC6"⟩⟩],
   [⟨some "MintC6", some ⟨some 500, some "MintC6"⟩⟩]⟩

def c6raw : RawTransactionData :=
  ⟨"sig1", 42, ⟨["sig1"], ⟨["a1", "a2"], "hash", []⟩⟩, c6meta, 0, "ts", some "conn"⟩

/-- A BUY candidate for `MintC6` with zero raw amounts, so the pipeline
reaches the balance-delta fallback. -/
def c6trade : ParsedTrade :=
  ⟨some "BUY", some ⟨some SOL_MINT, some 0⟩, some ⟨some "MintC6", some 0⟩,
   some "P", none, none, some "pool6", some "sig1", some 0, some "u", some "42"⟩

/-- The keys of the trade map, in insertion order. -/
def keysOf (m : TradeMap) : List String := m.map Prod.fst

/-- The documented invariant of the memory manager: the access order
holds exactly the keys of the map, each once. -/
def Synced (mm : TradeMemoryManager) : Prop :=
  mm.accessOrder.Nodup ∧ (keysOf mm.trades).Perm mm.accessOrder

/-- A trade used to exercise the memory manager. -/
def tradeFixture : Trade := ⟨"MintM", "PoolP", 2, progA, "42"⟩

/-- A one-byte memory ceiling (`maxMemoryMB = 2^-20`), small enough that
a single insertion triggers cleanup. -/
def cfgTiny : TradeMemoryConfig := ⟨1 / 1048576, 17 / 20⟩

/-- A stored trade and a one-entry manager state for the LRU theorems. -/
def storedFixture : StoredTrade := ⟨tradeFixture, 1, 1⟩

def mmOne : TradeMemoryManager := ⟨[("MintM", storedFixture)], ["MintM"]⟩

/-- `storedFixture` after a `getTrade` at time 9 refreshed `accessTime`. -/
def storedFixture9 : StoredTrade := ⟨tradeFixture, 1, 9⟩

def mmOneAfterGet : TradeMemoryManager :=
  ⟨mapSet mmOne.trades "MintM" storedFixture9,
   removeFromAccessOrder mmOne.accessOrder "MintM" ++ ["MintM"]⟩

/-! ## Theorems -/

theorem mapHas_iff (m : TradeMap) (k : String) :
    mapHas m k = true ↔ k ∈ keysOf m := by
  simp [mapHas, keysOf, List.any_eq_true, List.mem_map, beq_iff_eq]

theorem map_fst_overwrite (k : String) (v : StoredTrade) :
    ∀ (m : TradeMap),
      List.map Prod.fst (m.map (fun p => if p.1 == k then (k, v) else p))
        = List.map Prod.fst m
  | [] => rfl
  | p :: rest => by
    simp only [List.map_cons, map_fst_overwrite k v rest]
    by_cases hp : (p.1 == k) = true
    · rw [if_pos hp]
      simp [beq_iff_eq.mp hp]
    · rw [if_neg hp]

theorem keysOf_mapSet_of_has (m : TradeMap) (k : String) (v : StoredTrade)
    (h : mapHas m k = true) : keysOf (mapSet m k v) = keysOf m := by
  unfold mapSet
  rw [if_pos h]
  exact map_fst_overwrite k v m

theorem keysOf_mapSet_of_not_has (m : TradeMap) (k : String) (v : StoredTrade)
    (h : mapHas m k = false) : keysOf (mapSet m k v) = keysOf m ++ [k] := by
  unfold mapSet
  rw [if_neg (by simp [h])]
  simp [keysOf]

theorem keysOf_mapDelete (m : TradeMap) (k : String) :
    keysOf (mapDelete m k) = (keysOf m).filter (fun s => !(s == k)) := by
  induction m with
  | nil => rfl
  | cons p rest ih =>
    simp only [mapDelete, keysOf, List.map_cons, List.filter_cons] at *
    by_cases hp : (p.1 == k) = true
    · simpa [hp] using ih
    · simp [hp, ih]

theorem keysOf_mapDelete_perm (m : TradeMap) (mint : String) (rest : List String)
    (hperm : (keysOf m).Perm (mint :: rest)) (hnotmem : mint ∉ rest) :
    (keysOf (mapDelete m mint)).Perm rest := by
  rw [keysOf_mapDelete]
  have h1 : ((keysOf m).filter (fun s => !(s == mint))).Perm
      ((mint :: rest).filter (fun s => !(s == mint))) := hperm.filter _
  have h2 : (mint :: rest).filter (fun s => !(s == mint)) = rest := by
    rw [List.filter_cons]
    simp only [beq_self_eq_true, Bool.not_true, Bool.false_eq_true, if_false, reduceIte]
    exact List.filter_eq_self.mpr (fun a ha => by
      have hne : a ≠ mint := fun hc => hnotmem (hc ▸ ha)
      simp [hne])
  rw [h2] at h1
  exact h1

theorem synced_addTradeInsert (now : Nat) (mm : TradeMemoryManager) (t : Trade)
    (h : Synced mm) : Synced (addTradeInsert now mm t) := by
  obtain ⟨hnd, hperm⟩ := h
  unfold addTradeInsert Synced removeFromAccessOrder
  dsimp only
  by_cases hhas : mapHas mm.trades t.mint = true
  · rw [if_pos hhas]
    have hmem : t.mint ∈ mm.accessOrder :=
      hperm.mem_iff.mp ((mapHas_iff _ _).mp hhas)
    constructor
    · refine (List.perm_append_singleton _ _).nodup_iff.mpr ?_
      refine List.nodup_cons.mpr ⟨?_, hnd.erase _⟩
      intro hc
      exact absurd (hnd.mem_erase_iff.mp hc).1 (by simp)
    · dsimp only
      rw [keysOf_mapSet_of_has _ _ _ hhas]
      exact (hperm.trans (List.perm_cons_erase hmem)).trans
        (List.perm_append_singleton _ _).symm
  · rw [if_neg hhas]
    have hnotmem : t.mint ∉ mm.accessOrder := by
      intro hc
      exact hhas ((mapHas_iff _ _).mpr (hperm.mem_iff.mpr hc))
    constructor
    · exact (List.perm_append_singleton _ _).nodup_iff.mpr
        (List.nodup_cons.mpr ⟨hnotmem, hnd⟩)
    · dsimp only
      rw [keysOf_mapSet_of_not_has _ _ _ (by simpa using hhas)]
      exact hperm.append_right [t.mint]

theorem cleanupLoop_synced (target : ℚ) :
    ∀ (order : List String) (m : TradeMap), order.Nodup → (keysOf m).Perm order →
      (cleanupLoop target order m).1.Nodup
      ∧ (keysOf (cleanupLoop target order m).2).Perm (cleanupLoop target order m).1
  | [], m, hnd, hperm => ⟨by simp [cleanupLoop], by simpa [cleanupLoop] using hperm⟩
  | mint :: rest, m, hnd, hperm => by
    have hmem : mint ∈ keysOf m := hperm.mem_iff.mpr (by simp)
    have hhas : mapHas m mint = true := (mapHas_iff _ _).mpr hmem
    have hnotmem : mint ∉ rest := (List.nodup_cons.mp hnd).1
    have hndrest : rest.Nodup := (List.nodup_cons.mp hnd).2
    have hpermdel : (keysOf (mapDelete m mint)).Perm rest :=
      keysOf_mapDelete_perm m mint rest hperm hnotmem
    unfold cleanupLoop
    rw [if_pos hhas]
    split
    · exact cleanupLoop_synced target rest (mapDelete m mint) hndrest hpermdel
    · exact ⟨hnd, hperm⟩

theorem usageParts_eq_of_perm (m : TradeMap) (order : List String)
    (hperm : (keysOf m).Perm order) :
    usageParts m order = order.length * 474 := by
  have hlen : m.length = order.length := by
    simpa [keysOf] using hperm.length_eq
  unfold usageParts estimatedBytesPerTrade
  rw [hlen]
  ring

theorem cleanupLoop_usage_le (target : ℚ) (htarget : 0 ≤ target) :
    ∀ (order : List String) (m : TradeMap), order.Nodup → (keysOf m).Perm order →
      usageParts (cleanupLoop target order m).2 (cleanupLoop target order m).1 ≤ target
  | [], m, _, hperm => by
    have hlen : m.length = 0 := by simpa [keysOf] using hperm.length_eq
    simpa [cleanupLoop, usageParts, hlen, estimatedBytesPerTrade] using htarget
  | mint :: rest, m, hnd, hperm => by
    have hmem : mint ∈ keysOf m := hperm.mem_iff.mpr (by simp)
    have hhas : mapHas m mint = true := (mapHas_iff _ _).mpr hmem
    have hnotmem : mint ∉ rest := (List.nodup_cons.mp hnd).1
    have hndrest : rest.Nodup := (List.nodup_cons.mp hnd).2
    have hpermdel : (keysOf (mapDelete m mint)).Perm rest :=
      keysOf_mapDelete_perm m mint rest hperm hnotmem
    unfold cleanupLoop
    rw [if_pos hhas]
    split
    · exact cleanupLoop_usage_le target htarget rest (mapDelete m mint) hndrest hpermdel
    · next hstop => exact not_lt.mp hstop

theorem synced_addTrade (cfg : TradeMemoryConfig) (now : Nat) (mm : TradeMemoryManager)
    (t : Trade) (h : Synced mm) : Synced (addTrade cfg now mm t) := by
  have h1 := synced_addTradeInsert now mm t h
  unfold addTrade
  dsimp only
  split
  · exact cleanupLoop_synced _ _ _ h1.1 h1.2
  · exact h1

theorem addTrade_usage_le (cfg : TradeMemoryConfig)
    (hthr : cfg.cleanupThreshold ≤ 1) (hmax : 0 ≤ cfg.maxMemoryMB)
    (now : Nat) (mm : TradeMemoryManager) (t : Trade) (h : Synced mm) :
    getCurrentMemoryUsage (addTrade cfg now mm t) ≤ maxBytes cfg := by
  have hmaxB : 0 ≤ maxBytes cfg := by
    unfold maxBytes
    positivity
  have h1 := synced_addTradeInsert now mm t h
  unfold addTrade
  dsimp only
  split
  · have h7 : (0 : ℚ) ≤ maxBytes cfg * (7 / 10) := by positivity
    have hle := cleanupLoop_usage_le (maxBytes cfg * (7 / 10)) h7 _ _ h1.1 h1.2
    calc getCurrentMemoryUsage (performCleanup cfg (addTradeInsert now mm t))
        ≤ maxBytes cfg * (7 / 10) := hle
      _ ≤ maxBytes cfg := by
          calc maxBytes cfg * (7 / 10) ≤ maxBytes cfg * 1 :=
                mul_le_mul_of_nonneg_left (by norm_num) hmaxB
            _ = maxBytes cfg := mul_one _
  · next hno =>
    have hle : getCurrentMemoryUsage (addTradeInsert now mm t)
        ≤ maxBytes cfg * cfg.cleanupThreshold := by
      have := hno
      simp only [shouldCleanup, decide_eq_true_eq, not_lt] at this
      exact le_of_not_lt (by simpa [shouldCleanup] using hno)
    calc getCurrentMemoryUsage (addTradeInsert now mm t)
        ≤ maxBytes cfg * cfg.cleanupThreshold := hle
      _ ≤ maxBytes cfg := mul_le_of_le_one_right hmaxB hthr

theorem synced_empty : Synced TradeMemoryManager.empty :=
  ⟨List.nodup_nil, List.Perm.refl []⟩

theorem foldl_addTrade_invariant (cfg : TradeMemoryConfig)
    (hthr : cfg.cleanupThreshold ≤ 1) (hmax : 0 ≤ cfg.maxMemoryMB) :
    ∀ (puts : List (Nat × Trade)) (mm : TradeMemoryManager), Synced mm →
      getCurrentMemoryUsage mm ≤ maxBytes cfg →
      Synced (puts.foldl (fun s p => addTrade cfg p.1 s p.2) mm)
      ∧ getCurrentMemoryUsage (puts.foldl (fun s p => addTrade cfg p.1 s p.2) mm)
          ≤ maxBytes cfg
  | [], mm, hs, hu => ⟨hs, hu⟩
  | p :: ps, mm, hs, hu => by
    have hs1 := synced_addTrade cfg p.1 mm p.2 hs
    have hu1 := addTrade_usage_le cfg hthr hmax p.1 mm p.2 hs
    exact foldl_addTrade_invariant cfg hthr hmax ps _ hs1 hu1

/-- C2: for every sequence of `addTrade` operations starting from the
empty manager, the estimated footprint (474 bytes per entry) never
exceeds the byte ceiling (for any configuration with
`cleanupThreshold ≤ 1`, as the deployed `0.85`); and whenever an
insertion pushes the footprint past `ceiling × cleanupThreshold`, the
cleanup evicts from the least-recently-used end until the footprint is
at most `ceiling × 0.7`. -/
theorem footprint_bounded (cfg : TradeMemoryConfig)
    (hthr : cfg.cleanupThreshold ≤ 1) (hmax : 0 ≤ cfg.maxMemoryMB)
    (puts : List (Nat × Trade)) :
    getCurrentMemoryUsage
        (puts.foldl (fun s p => addTrade cfg p.1 s p.2) TradeMemoryManager.empty)
      ≤ maxBytes cfg
  ∧ ∀ (now : Nat) (t : Trade) (mm : TradeMemoryManager), Synced mm →
      shouldCleanup cfg (addTradeInsert now mm t) = true →
      getCurrentMemoryUsage (addTrade cfg now mm t) ≤ maxBytes cfg * (7 / 10) := by
  have hmaxB : 0 ≤ maxBytes cfg := by
    unfold maxBytes
    positivity
  constructor
  · exact (foldl_addTrade_invariant cfg hthr hmax puts TradeMemoryManager.empty
      synced_empty (by simpa [getCurrentMemoryUsage, usageParts] using hmaxB)).2
  · intro now t mm hs hclean
    have h1 := synced_addTradeInsert now mm t hs
    have h7 : (0 : ℚ) ≤ maxBytes cfg * (7 / 10) := by positivity
    unfold addTrade
    dsimp only
    rw [if_pos hclean]
    exact cleanupLoop_usage_le (maxBytes cfg * (7 / 10)) h7 _ _ h1.1 h1.2

/-- C2 witness. -/
theorem footprint_bounded_witness :
    getCurrentMemoryUsage
        ([(1, tradeFixture)].foldl (fun s p => addTrade cfgTiny p.1 s p.2)
          TradeMemoryManager.empty)
      ≤ maxBytes cfgTiny
  ∧ getCurrentMemoryUsage (addTrade cfgTiny 1 TradeMemoryManager.empty tradeFixture)
      ≤ maxBytes cfgTiny * (7 / 10) :=
  ⟨(footprint_bounded cfgTiny (by norm_num [cfgTiny]) (by norm_num [cfgTiny])
      [(1, tradeFixture)]).1,
   (footprint_bounded cfgTiny (by norm_num [cfgTiny]) (by norm_num [cfgTiny]) []).2
     1 tradeFixture TradeMemoryManager.empty synced_empty (by decide)⟩

theorem cleanupLoop_drop (target : ℚ) :
    ∀ (order : List String) (m : TradeMap),
      ∃ n, (cleanupLoop target order m).1 = order.drop n
  | [], _ => ⟨0, rfl⟩
  | mint :: rest, m => by
    unfold cleanupLoop
    split
    · obtain ⟨n, hn⟩ := cleanupLoop_drop target rest
        (if mapHas m mint then mapDelete m mint else m)
      exact ⟨n + 1, by simpa using hn⟩
    · exact ⟨0, rfl⟩

/-- C7: eviction follows LRU order and access promotes to MRU:
the cleanup loop always leaves a suffix (`drop n`) of the access order,
so the least-recently-used key (the head) is evicted before any other;
`getTrade` of a present key moves that key to the most-recently-used
end; and `addTrade` first moves the key to the most-recently-used end
(the final order is a suffix of that promoted order when cleanup
evicts). -/
theorem lru_eviction_order :
    (∀ (target : ℚ) (order : List String) (m : TradeMap),
      ∃ n, (cleanupLoop target order m).1 = order.drop n)
  ∧ (∀ (now : Nat) (mm : TradeMemoryManager) (mint : String) (t : StoredTrade)
      (mm2 : TradeMemoryManager), getTrade now mm mint = (some t, mm2) →
      mm2.accessOrder = removeFromAccessOrder mm.accessOrder mint ++ [mint])
  ∧ (∀ (cfg : TradeMemoryConfig) (now : Nat) (mm : TradeMemoryManager) (t : Trade),
      ∃ n, (addTrade cfg now mm t).accessOrder
        = ((if mapHas mm.trades t.mint then removeFromAccessOrder mm.accessOrder t.mint
            else mm.accessOrder) ++ [t.mint]).drop n) := by
  refine ⟨fun target => cleanupLoop_drop target, ?_, ?_⟩
  · intro now mm mint t mm2 heq
    unfold getTrade at heq
    cases hget : mapGet mm.trades mint with
    | none =>
      rw [hget] at heq
      cases heq
    | some t0 =>
      rw [hget] at heq
      have h2 := congrArg Prod.snd heq
      simp only at h2
      rw [← h2]
  · intro cfg now mm t
    unfold addTrade
    dsimp only
    split
    · obtain ⟨n, hn⟩ := cleanupLoop_drop (maxBytes cfg * (7 / 10))
        (addTradeInsert now mm t).accessOrder (addTradeInsert now mm t).trades
      exact ⟨n, by simpa [performCleanup, addTradeInsert] using hn⟩
    · exact ⟨0, by simp [addTradeInsert]⟩

/-- C7 witness. -/
theorem lru_eviction_order_witness :
    mmOneAfterGet.accessOrder
      = removeFromAccessOrder mmOne.accessOrder "MintM" ++ ["MintM"] :=
  lru_eviction_order.2.1 9 mmOne "MintM" storedFixture9 mmOneAfterGet (by rfl)

/-- C9: when the underlying parser throws, `processTransaction` returns
the empty result — `totalTrades = 0`, empty valid and invalid trade
lists — instead of propagating the exception. -/
theorem processTransaction_parser_fault_barrier (allowedProgramIds : List String)
    (msg : String) (raw : RawTransactionData) :
    processTransaction allowedProgramIds (.error msg) raw = emptyProcessedResult
  ∧ emptyProcessedResult.processingStats.totalTrades = 0
  ∧ emptyProcessedResult.validTrades = []
  ∧ emptyProcessedResult.invalidTrades = [] :=
  ⟨rfl, rfl, rfl, rfl⟩

/-- C3 counterexample: a request that passes every other validation and
carries `slippage = 999` is accepted (it reaches the builder with
`slippageBps = 999`); the claim says it is rejected with HTTP 400.  The
source accepts any slippage in `[0, 10000]`. -/
theorem slippage999_accepted :
    postSwapMint supportedFixture "MintM" (bodyWithSlippage (some 999)) none
      = .proceed 999 1 (some 1) (some (1/2)) quoteFixture := by
  rfl

/-- C3 (amended): slippage 1000 and 10000 are accepted; 10001 and
negative values are rejected with the HTTP 400 slippage error; the
lower bound of the accepted range is 0, not 1000 (999 is accepted, see
the counterexample). -/
theorem slippage_boundaries :
    postSwapMint supportedFixture "MintM" (bodyWithSlippage (some 1000)) none
      = .proceed 1000 1 (some 1) (some (1/2)) quoteFixture
  ∧ postSwapMint supportedFixture "MintM" (bodyWithSlippage (some 10000)) none
      = .proceed 10000 1 (some 1) (some (1/2)) quoteFixture
  ∧ postSwapMint supportedFixture "MintM" (bodyWithSlippage (some 10001)) none
      = .validationError 400 slippageErrorMsg
  ∧ postSwapMint supportedFixture "MintM" (bodyWithSlippage (some (-1))) none
      = .validationError 400 slippageErrorMsg := by
  refine ⟨by rfl, by rfl, by rfl, by rfl⟩

/-- C10: a body slippage of exactly 0 is falsy, so the slippage branch
is skipped: the outcome is the same as with no slippage at all, and a
request passing the other validations proceeds with the default 50 bps
instead of being rejected. -/
theorem slippage_zero_treated_as_absent (supported : List String) (mint : String)
    (b : SwapBody) (lookup : Option Trade) (h : b.slippage = some 0) :
    postSwapMint supported mint b lookup
      = postSwapMint supported mint
          ⟨b.signer, b.encoding, b.type, b.amountIn, b.amountOut, none, b.quote⟩ lookup
  ∧ postSwapMint supportedFixture "MintM" (bodyWithSlippage (some 0)) none
      = .proceed 50 1 (some 1) (some (1/2)) quoteFixture := by
  constructor
  · simp only [postSwapMint, h]
    rfl
  · rfl

/-- C10 witness. -/
theorem slippage_zero_treated_as_absent_witness :
    postSwapMint supportedFixture "MintM" (bodyWithSlippage (some 0)) none
      = postSwapMint supportedFixture "MintM"
          ⟨(bodyWithSlippage (some 0)).signer, (bodyWithSlippage (some 0)).encoding,
           (bodyWithSlippage (some 0)).type, (bodyWithSlippage (some 0)).amountIn,
           (bodyWithSlippage (some 0)).amountOut, none, (bodyWithSlippage (some 0)).quote⟩
          none :=
  (slippage_zero_treated_as_absent supportedFixture "MintM" (bodyWithSlippage (some 0))
    none rfl).1

/-- C4 counterexample: for `avgPrice = 1/2` and `amountIn = 3`, the sell
projection yields `outputAmount = 3/2` with no flooring, while the claim
says `⌊3 × 1/2⌋ = 1`. -/
theorem sell_projection_not_floored :
    (calculateAmounts (some "sell") (some 3) none 3 (1/2)).2 = some (3/2)
  ∧ ((3 : ℚ)/2) ≠ ((Int.floor ((3 : ℚ) * (1/2)) : ℤ) : ℚ) := by
  constructor
  · rfl
  · intro heq
    rw [show ((Int.floor ((3 : ℚ) * (1/2)) : ℤ) : ℚ) = 1 by norm_num] at heq
    norm_num at heq

/-- C4 (amended): the amount projection computes, with no flooring
anywhere: buy+amountIn gives `(a, a / p)`; buy+amountOut gives
`(b × p, b)`; sell+amountIn gives `(a, a × p)` (not `⌊a × p⌋`);
sell+amountOut gives `(b / p, b)` (not `⌊b / p⌋`). -/
theorem amount_projection (a b p : ℚ) (ha : a ≠ 0) (hb : b ≠ 0) :
    calculateAmounts (some "buy") (some a) none a p = (some a, some (a / p))
  ∧ calculateAmounts (some "buy") none (some b) b p = (some (b * p), some b)
  ∧ calculateAmounts (some "sell") (some a) none a p = (some a, some (a * p))
  ∧ calculateAmounts (some "sell") none (some b) b p = (some (b / p), some b) := by
  have ha' : (a == 0) = false := by simpa using ha
  have hb' : (b == 0) = false := by simpa using hb
  refine ⟨?_, ?_, ?_, ?_⟩ <;> simp [calculateAmounts, numTruthy, ha', hb']

/-- C4 witness. -/
theorem amount_projection_witness :
    calculateAmounts (some "sell") (some 3) none 3 (1/2) = (some 3, some (3 * (1/2))) :=
  (amount_projection 3 5 (1/2) (by norm_num) (by norm_num)).2.2.1

/-- C8 counterexample: a request supplying both `amountIn = 1` and
`amountOut = 2` is not rejected — it proceeds to the builder, with
`amountIn` taking precedence; the claim says it gets HTTP 400. -/
theorem both_amounts_accepted :
    postSwapMint supportedFixture "MintM" (bodyWithAmounts (some 1) (some 2)) none
      = .proceed 50 1 (some 1) (some (1/2)) quoteFixture := by
  rfl

/-- C8 (amended): the handler rejects with HTTP 400 only when both
amount fields are falsy (absent or zero), and rejects a non-positive
selected amount; supplying both amounts is accepted, with `amountIn`
taking precedence. -/
theorem amount_presence_validation :
    postSwapMint supportedFixture "MintM" (bodyWithAmounts none none) none
      = .validationError 400 "Either amountIn or amountOut parameter is required"
  ∧ postSwapMint supportedFixture "MintM" (bodyWithAmounts (some 0) none) none
      = .validationError 400 "Either amountIn or amountOut parameter is required"
  ∧ postSwapMint supportedFixture "MintM" (bodyWithAmounts (some (-5)) none) none
      = .validationError 400 "Amount must be a positive number"
  ∧ postSwapMint supportedFixture "MintM" (bodyWithAmounts none (some 0)) none
      = .validationError 400 "Either amountIn or amountOut parameter is required"
  ∧ postSwapMint supportedFixture "MintM" (bodyWithAmounts (some 1) (some 2)) none
      = .proceed 50 1 (some 1) (some (1/2)) quoteFixture := by
  refine ⟨by rfl, by rfl, by rfl, by rfl, by rfl⟩

/-- C5 counterexample: for a SELL candidate whose `outputToken.mint` is
WSOL and whose `inputToken.mint` is the traded token, the source picks
the WSOL output mint, while the claim (outputMint only when non-WSOL)
picks the input mint. -/
theorem mint_resolution_picks_wsol_output :
    extractMint tradeSellToWsol [] = some SOL_MINT
  ∧ extractMintSpec tradeSellToWsol [] = some "MintM"
  ∧ some SOL_MINT ≠ (some "MintM" : Option String) := by
  refine ⟨by rfl, by rfl, by decide⟩

/-- C5 (amended): the observation mint is `outputMint` whenever that is
present (truthy) — with no WSOL exception — else `inputMint`; when both
are absent, it is borrowed from the first sibling carrying any mint
(preferring the sibling's `outputMint`). -/
theorem mint_resolution (t : ParsedTrade) (sibs : List TradeData) :
    (strTruthy (jsOr (tokMint t.outputToken) (tokMint t.inputToken)) = true →
      extractMint t sibs = jsOr (tokMint t.outputToken) (tokMint t.inputToken))
  ∧ (strTruthy (jsOr (tokMint t.outputToken) (tokMint t.inputToken)) = false →
      ∀ d, sibs.find? (fun d => strTruthy d.inputMint || strTruthy d.outputMint) = some d →
        extractMint t sibs = jsOr d.outputMint d.inputMint) := by
  constructor
  · intro h
    unfold extractMint
    simp [h]
  · intro h d hd
    unfold extractMint
    cases sibs with
    | nil => simp at hd
    | cons s rest =>
      simp only [h, hd, Bool.not_false, Bool.true_and, List.length_cons]
      rw [if_pos (by simp)]

/-- C5 witness. -/
theorem mint_resolution_witness :
    extractMint tradeSellToWsol []
      = jsOr (tokMint tradeSellToWsol.outputToken) (tokMint tradeSellToWsol.inputToken) :=
  (mint_resolution tradeSellToWsol []).1 (by rfl)

/-- C6: the balance-delta fallback reads the meta from
`rawTransaction.transaction.meta`, which is absent on records as the
streamer constructs them (`meta` is a sibling field), so it returns 0
for every candidate — including the concrete record `c6raw`, whose
`meta` holds a 2-SOL delta and a 500-token delta, for which the claimed
computation yields `|ΔSOL| / |ΔToken| = 4000000`. -/
theorem balance_fallback_returns_zero :
    (∀ (t : ParsedTrade) (raw : RawTransactionData),
      calculateAvgPriceFromBalanceChanges t raw = 0)
  ∧ calculateAvgPriceFromBalanceChanges c6trade c6raw = 0
  ∧ calculateAvgPriceFromBalanceChangesIntended c6trade c6raw = 4000000
  ∧ ((4000000 : ℚ) ≠ 0) := by
  refine ⟨?_, by rfl, by decide, by norm_num⟩
  intro t raw
  simp only [calculateAvgPriceFromBalanceChanges, Transaction.dynMeta]
  split
  · rfl
  · rfl

/-- C1 counterexample: a Jupiter quote whose label maps to a program
that is not a supported builder is still admitted: `getTradeForMint`
stores it in the price index with `programId = "unknown"`, which is not
in the whitelist.  (The claim says such a candidate is admitted only if
its mapped program is a supported builder.) -/
theorem jupiter_unknown_program_admitted :
    ((getTradeForMint cfgFixture supportedFixture (fun _ => none) (.error ())
        (some jupRespGoonFi) 5 .empty "MintC1").2.trades.map (fun p => p.2.programId))
      = ["unknown"]
  ∧ supportedFixture.contains "unknown" = false := by
  refine ⟨by rfl, by rfl⟩

/-- C1 (amended): a trade accepted by the validator satisfies the D
invariants — positive `avgPrice`, non-empty non-sentinel pool,
whitelisted `programId`; a Jupiter fallback candidate carries its mapped
program identifier only when that program is a supported builder, but
otherwise it is still returned (and stored) with `programId`
`"unknown"`, so Jupiter write-backs need not satisfy the whitelist
invariant. -/
theorem validated_trade_invariants (allowedProgramIds : List String) (t : PTrade)
    (h : (validateTrade allowedProgramIds t).1 = true) :
    (t.avgPrice > 0 ∧ t.pool ≠ "" ∧ t.pool ≠ "unknown"
      ∧ allowedProgramIds.contains (t.programId.getD "") = true)
  ∧ ∀ (supported : List String) (mint : String) (now : Nat)
      (resp : Option JupiterQuoteResponse) (tr : Trade),
      fetchTradeFromJupiter supported mint now resp = some tr →
      tr.programId = "unknown" ∨ supported.contains tr.programId = true := by
  constructor
  · unfold validateTrade at h
    split_ifs at h with h1 h2 h3 h4 h5 h6 h7 h8 h9
    refine ⟨by linarith [not_le.mp h3], ?_, ?_, ?_⟩
    · intro he
      exact absurd (by simp [he]) h2
    · intro he
      exact absurd (by simp [he]) h7
    · simpa using h9
  · intro supported mint now resp tr heq
    unfold fetchTradeFromJupiter at heq
    cases resp with
    | none => exact absurd heq (by simp)
    | some data =>
      dsimp only at heq
      split at heq
      · exact absurd heq (by simp)
      · split at heq
        · exact absurd heq (by simp)
        · split at heq
          · exact absurd heq (by simp)
          · rw [Option.some.injEq] at heq
            subst heq
            dsimp only
            split
            · split
              · split
                · right
                  assumption
                · left
                  rfl
              · left
                rfl
            · left
              rfl

/-- C1 witness. -/
theorem validated_trade_invariants_witness :
    (validateTrade supportedFixture ⟨some "MintM", "PoolP", 2, some progA, "42"⟩).1 = true
  ∧ (⟨some "MintM", "PoolP", 2, some progA, "42"⟩ : PTrade).avgPrice > 0 :=
  ⟨by decide,
   (validated_trade_invariants supportedFixture ⟨some "MintM", "PoolP", 2, some progA, "42"⟩
     (by decide)).1.1⟩

end SwapApi
